import Mathlib

/-!
Verification of the deployment job orchestration core of the Org-Magic-Agent
repository, as a shallow embedding in Lean 4.

The embedding covers:
* `org_utils.py` — `deploy_metadata_xml` (manifest resolution, filename rules,
  deploy submission, unbounded status polling, result collection) and the
  `deploy_metadata` tool wrapper;
* `data_utils.py` — `_deploy_csv_records_internal` (bulk ingest: create job,
  CSV serialization, upload, close, bounded status polling, result fetching)
  and the record-cleaning step of `deploy_csv_data` / `deploy_csv_records`;
* `bulk_upload.py` — `bulk_upload_accounts` and its CSV body construction.

Python dicts with string values are modelled as ordered association lists
(`Record`).  Network calls are modelled by oracles supplying each response
(`Except String α`, where `.error` stands for a raised
`requests.exceptions.RequestException` carrying its message) and each embedded
pipeline additionally returns the trace of network effects it issued, so that
"no retry" / "no network call" statements are expressible.

Python string primitives are modelled on the character list underlying a Lean
`String`, with the same semantics as the source's uses: `stripSpaces` models
`.replace(' ', '')`, `stripWs` models `.strip()`, `lowerAscii` models
`.lower()`, `endsWithMeta` models `.endswith("-meta.xml")`, `joinWith` models
`sep.join(...)`, and `splitOnChar` models splitting on a one-character
separator.
-/

/-- Removal of every space character: the effect of `.replace(' ', '')`. -/
def stripSpaces (s : String) : String :=
  String.mk (s.data.filter (fun c => c != ' '))

/-- Python `.strip()`: drop whitespace from both ends. -/
def stripWs (s : String) : String :=
  String.mk (((s.data.dropWhile Char.isWhitespace).reverse.dropWhile
    Char.isWhitespace).reverse)

/-- Python `.lower()` on the ASCII strings the source handles. -/
def lowerAscii (s : String) : String :=
  String.mk (s.data.map Char.toLower)

/-- Python `.endswith("-meta.xml")`. -/
def endsWithMeta (s : String) : Bool :=
  "-meta.xml".data.isSuffixOf s.data

/-- Python `sep.join(parts)`. -/
def joinWith (sep : String) : List String → String
  | [] => ""
  | [x] => x
  | x :: xs => x ++ sep ++ joinWith sep xs

/-- Split a character list at every occurrence of `c`. -/
def splitChars (c : Char) : List Char → List (List Char)
  | [] => [[]]
  | x :: xs =>
    let r := splitChars c xs
    if x = c then [] :: r
    else
      match r with
      | [] => [[x]]
      | g :: gs => (x :: g) :: gs

/-- Python `.split(c)` for a one-character separator `c`. -/
def splitOnChar (c : Char) (s : String) : List String :=
  (splitChars c s.data).map String.mk

/-- A Python dict with string keys and string values, in insertion order. -/
abbrev Record := List (String × String)

/-- Dict lookup, `d.get(k)`: the value at the first occurrence of key `k`. -/
def rlookup (r : Record) (k : String) : Option String :=
  (r.find? (fun kv => kv.1 = k)).map (fun kv => kv.2)

/-- The keys of a record, in order (`list(d.keys())`). -/
def keysOf (r : Record) : List String := r.map (fun kv => kv.1)

/-!
## Manifest resolution (`org_utils.py`, `deploy_metadata_xml` step 2)

The `metadata_map.yml` mapping is modelled as an ordered list of
`(folder name, configuration list)` pairs; each configuration has a `type`
and an `extension` field, as read by the source.
-/

/-- One configuration entry under a folder key of `metadata_map.yml`. -/
structure MapSubEntry where
  type : String
  extension : String
deriving DecidableEq

/-- The loaded `metadata_map.yml` mapping: folder name to configurations. -/
abbrev MetadataMap := List (String × List MapSubEntry)

/-- The entries whose configuration list mentions `metadata_type`
(the `entity_configurations` list comprehension of the source). -/
def entityMatches (m : MetadataMap) (metadata_type : String) : MetadataMap :=
  m.filter (fun e => e.2.any (fun s => s.type = metadata_type))

/-- How many configuration-table entries match the type name. -/
def entityMatchCount (m : MetadataMap) (metadata_type : String) : Nat :=
  (entityMatches m metadata_type).length

/-- The `ValueError` message raised when no entry matches. -/
def configErrMsg (metadata_type : String) : String :=
  "Unable to locate configuration for entity " ++ metadata_type ++ " in metadata_map.yml"

/-- Manifest resolution: take the first matching entry and the first
configuration under it (`entity_configurations[0]`,
`metadata_map[entity_config][0]`); raise `ValueError` when nothing matches.
Returns `(folder_name, extension)`. -/
def resolveEntityConfig (m : MetadataMap) (metadata_type : String) :
    Except String (String × String) :=
  match entityMatches m metadata_type with
  | [] => .error (configErrMsg metadata_type)
  | e :: _ =>
    match e.2 with
    | [] => .error "IndexError"
    | c :: _ => .ok (e.1, c.extension)

/-!
## Filename rules (`org_utils.py`, `deploy_metadata_xml` step 3)

`label` is the text of the document's `label` element: `none` when the
element is absent; `ElementTree` never yields an empty-string text for a
present element (an empty element has text `None`), which the theorems track
as the hypothesis `label ≠ some ""`.
-/

/-- Append the `-meta.xml` suffix when not already present. -/
def addMetaSuffix (base : String) : String :=
  if endsWithMeta base then base else base ++ "-meta.xml"

/-- The archive filename computed by the source, including the per-type
override rules and the `-meta.xml` suffix rule. -/
def get_metadata_filename (metadata_type : String) (label : Option String)
    (fullName : String) (extension : String) : String :=
  addMetaSuffix
    (if metadata_type = "CustomObject" then
      match label with
      | some l =>
        if l ≠ "" then stripSpaces l ++ "__c." ++ extension
        else fullName ++ "." ++ extension
      | none => fullName ++ "." ++ extension
    else if metadata_type = "RemoteSiteSetting" then
      stripSpaces fullName ++ "." ++ extension
    else if metadata_type = "SurveySettings" then
      "Survey." ++ extension
    else fullName ++ "." ++ extension)

/-- The filename rules exactly as the specification words them: `CustomObject`
uses the label (spaces stripped) plus `__c` plus extension, falling back to
`fullName` when the label is absent; `RemoteSiteSetting` uses `fullName` with
spaces stripped; `SurveySettings` is the literal `Survey`; anything else uses
`fullName`; and the `-meta.xml` suffix is appended when not already present. -/
def spec_metadata_filename (metadata_type : String) (label : Option String)
    (fullName : String) (extension : String) : String :=
  addMetaSuffix
    (if metadata_type = "CustomObject" then
      match label with
      | some l => stripSpaces l ++ "__c." ++ extension
      | none => fullName ++ "." ++ extension
    else if metadata_type = "RemoteSiteSetting" then
      stripSpaces fullName ++ "." ++ extension
    else if metadata_type = "SurveySettings" then
      "Survey." ++ extension
    else fullName ++ "." ++ extension)

/-- A configuration table with two entries matching the same type name,
used to exercise the ambiguous-match behaviour of the resolver. -/
def dupMap : MetadataMap :=
  [("objects", [⟨"CustomObject", "object"⟩]),
   ("remoteSiteSettings", [⟨"CustomObject", "remoteSite"⟩])]

/-!
## Record cleaning (`data_utils.py`, `deploy_csv_data` / `deploy_csv_records`)

Both CSV entry points drop fields whose value is falsy or whitespace-only
(`if v and v.strip()`) and skip records that end up with no fields.
-/

/-- Drop the empty/whitespace-only fields of one parsed record. -/
def cleanRecord (r : Record) : Record :=
  r.filter (fun kv => kv.2 != "" && stripWs kv.2 != "")

/-- Clean every record and keep only the non-empty ones. -/
def cleanRecords (rows : List Record) : List Record :=
  (rows.map cleanRecord).filter (fun r => !r.isEmpty)

/-!
## CSV serialization (`data_utils.py`, `_deploy_csv_records_internal` step 2)

`csv.DictWriter` with the first record's keys as `fieldnames`: a row holding a
key outside `fieldnames` raises `ValueError` (modelled as `.error` carrying
the offending keys); a missing key is written as the empty cell (`restval`);
a cell needing quoting is quoted with doubled inner quotes (QUOTE_MINIMAL).
-/

/-- Quote a CSV cell when it contains a separator, quote or line break. -/
def csvQuote (s : String) : String :=
  if s.data.any (fun c => c == ',' || c == '"' || c == '\n' || c == '\r') then
    "\"" ++ String.mk (s.data.flatMap (fun c => if c = '"' then ['"', '"'] else [c])) ++ "\""
  else s

/-- Serialize one record against the header `fieldnames`
(`DictWriter.writerow`); keys outside `fieldnames` are a `ValueError`. -/
def writeRowCells (fieldnames : List String) (r : Record) :
    Except (List String) String :=
  match (keysOf r).filter (fun k => !(fieldnames.contains k)) with
  | [] => .ok (joinWith "," (fieldnames.map (fun f => csvQuote ((rlookup r f).getD ""))))
  | k :: ks => .error (k :: ks)

/-- Serialize the data rows in order, stopping at the first `ValueError`. -/
def writeRowsLines (fieldnames : List String) : List Record → Except (List String) (List String)
  | [] => .ok []
  | r :: rs =>
    match writeRowCells fieldnames r with
    | .error wf => .error wf
    | .ok line =>
      match writeRowsLines fieldnames rs with
      | .error wf => .error wf
      | .ok lines => .ok (line :: lines)

/-- The emitted CSV as a list of lines: header = the keys of the first
record, then one line per record. -/
def serializeCsvLines : List Record → Except (List String) (List String)
  | [] => .ok []
  | r0 :: rest =>
    let fieldnames := keysOf r0
    let header := joinWith "," (fieldnames.map csvQuote)
    match writeRowsLines fieldnames (r0 :: rest) with
    | .error wf => .error wf
    | .ok rows => .ok (header :: rows)

/-- Line-ending normalization applied to the emitted CSV
(`.replace('\r\n', '\n').replace('\r', '\n')`). -/
def normalizeLFChars : List Char → List Char
  | [] => []
  | '\r' :: '\n' :: rest => '\n' :: normalizeLFChars rest
  | '\r' :: rest => '\n' :: normalizeLFChars rest
  | c :: rest => c :: normalizeLFChars rest

/-- Normalize every line ending of a string to LF. -/
def normalizeLF (s : String) : String := String.mk (normalizeLFChars s.data)

/-- The full CSV body uploaded by the ingest pipeline: every line is
terminated by LF (the writer's `lineterminator`), then normalized. -/
def serializeCsvContent (records : List Record) : Except (List String) String :=
  match serializeCsvLines records with
  | .error wf => .error wf
  | .ok lines => .ok (normalizeLF (String.join (lines.map (fun l => l ++ "\n"))))

/-!
## Ingest results and the bounded poll loop (`_deploy_csv_records_internal`)
-/

/-- One entry of the `errors` list of the results dict: a bare message, a
`step`-tagged failure, or a per-record failure. -/
inductive ErrEntry where
  | msg (s : String)
  | stepErr (step : String) (error : String)
  | recordErr (record : String) (error : String)
deriving DecidableEq

/-- The `all_results` dict threaded through the ingest pipeline. -/
structure AllResults where
  success : Bool
  total_records : Nat
  successful : Nat
  failed : Nat
  errors : List ErrEntry
  created_ids : List String
deriving DecidableEq

/-- The result returned for an empty records list. -/
def noRecordsResult : AllResults :=
  { success := false, total_records := 0, successful := 0, failed := 0,
    errors := [.msg "No records provided"], created_ids := [] }

/-- The freshly initialized results dict for `n` records. -/
def initResults (n : Nat) : AllResults :=
  { success := true, total_records := n, successful := 0, failed := 0,
    errors := [], created_ids := [] }

/-- A network request or sleep issued by the ingest pipeline. -/
inductive NetEffect where
  | createJob
  | uploadData
  | closeJob
  | pollStatus
  | fetchSuccess
  | fetchFailed
  | sleep (seconds : Nat)
deriving DecidableEq

/-- Outcome of the poll loop: an early return of the whole pipeline with a
failure results dict, or a break on `JobComplete`. -/
inductive PollOut where
  | aborted (r : AllResults)
  | complete
deriving DecidableEq

/-- The results dict produced when the poll loop exhausts `max_wait_time`. -/
def pollTimeoutResult (res : AllResults) : AllResults :=
  { res with success := false,
             errors := res.errors ++
               [.stepErr "poll_status" "Job did not complete within the maximum wait time"] }

/-- Step 4 of `_deploy_csv_records_internal`: poll the job status every 3
seconds while accumulated elapsed time is below 300 seconds.  `statusF i` is
the response to the `i`-th GET: a raised request exception or the status
JSON.  `JobComplete` breaks out; `Failed`/`Aborted` and request exceptions
return a failure dict; `InProgress`/`Open` and any unrecognized state sleep
and continue; exhausting the budget appends the timeout error. -/
def pollPhase (statusF : Nat → Except String Record) (res : AllResults)
    (i elapsed : Nat) : PollOut × List NetEffect :=
  if _h : elapsed < 300 then
    match statusF i with
    | .error e =>
      (.aborted { res with
                  success := false,
                  errors := res.errors ++
                    [.stepErr "poll_status" ("Error polling job status: " ++ e)] },
       [.pollStatus])
    | .ok js =>
      let state := rlookup js "state"
      if state = some "JobComplete" then
        (.complete, [.pollStatus])
      else if state = some "Failed" ∨ state = some "Aborted" then
        (.aborted { res with
                    success := false,
                    errors := res.errors ++ [.stepErr "job_processing"
                      ("Job " ++ lowerAscii (state.getD "") ++ ": " ++
                       ((rlookup js "errorMessage").getD "Unknown error"))] },
         [.pollStatus])
      else if state = some "InProgress" ∨ state = some "Open" then
        let r := pollPhase statusF res (i + 1) (elapsed + 3)
        (r.1, .pollStatus :: .sleep 3 :: r.2)
      else
        let r := pollPhase statusF res (i + 1) (elapsed + 3)
        (r.1, .pollStatus :: .sleep 3 :: r.2)
  else
    (.aborted (pollTimeoutResult res), [])
termination_by 300 - elapsed
decreasing_by all_goals omega

/-!
## Result collection (`_deploy_csv_records_internal` step 5)

The `successfulResults` / `failedResults` endpoints return CSV parsed with
`csv.DictReader`: first line is the header, blank lines are skipped, short
rows are padded (`restval`, modelled as the empty cell).  The two GETs are
best-effort: a request exception only logs a warning.
-/

/-- Pair header fields with the cells of one row, padding missing cells. -/
def zipHeader (fields : List String) (cells : List String) : Record :=
  fields.zip (cells ++ List.replicate (fields.length - cells.length) "")

/-- Parse a results CSV into records, `csv.DictReader`-style. -/
def dictReaderParse (content : String) : List Record :=
  match (splitOnChar '\n' content).filter (fun l => l != "") with
  | [] => []
  | h :: rest =>
    let fields := splitOnChar ',' h
    rest.map (fun line => zipHeader fields (splitOnChar ',' line))

/-- Fold step for one successful-results row: count it and record its
`sf__Id` when that column exists. -/
def succRowStep (acc : AllResults) (row : Record) : AllResults :=
  { acc with
    successful := acc.successful + 1,
    created_ids :=
      if (keysOf row).contains "sf__Id" then
        acc.created_ids ++ [(rlookup row "sf__Id").getD ""]
      else acc.created_ids }

/-- Fold step for one failed-results row: count it and append a per-record
error with the row's `sf__Id` and `sf__Error` (with the source's defaults). -/
def failRowStep (acc : AllResults) (row : Record) : AllResults :=
  { acc with
    failed := acc.failed + 1,
    errors := acc.errors ++
      [.recordErr ((rlookup row "sf__Id").getD "Unknown")
                  ((rlookup row "sf__Error").getD "Unknown error")] }

/-- Step 5 of `_deploy_csv_records_internal`: fetch both result CSVs
(best-effort), tally them, then set `success` to `failed == 0`. -/
def resultsPhase (succR failR : Except String String) (res : AllResults) :
    AllResults × List NetEffect :=
  let res1 :=
    match succR with
    | .error _ => res
    | .ok content =>
      if content ≠ "" then (dictReaderParse content).foldl succRowStep res else res
  let res2 :=
    match failR with
    | .error _ => res1
    | .ok content =>
      if content ≠ "" then (dictReaderParse content).foldl failRowStep res1 else res1
  ({ res2 with success := res2.failed == 0 }, [.fetchSuccess, .fetchFailed])

/-!
## The full ingest pipeline (`_deploy_csv_records_internal`)
-/

/-- The remote side of one ingest run: the response to each request the
pipeline can issue.  A `.error` models a raised
`requests.exceptions.RequestException`; its string is the detail the source
interpolates into the step's error message (`str(e)` plus, when a response is
attached, the appended `" - Response: ..."` text). -/
structure IngestOracle where
  createJob : Except String Record
  upload : Except String Unit
  close : Except String Unit
  status : Nat → Except String Record
  successResults : Except String String
  failedResults : Except String String

/-- A results dict for a step-tagged fatal pipeline failure. -/
def stepFailure (base : AllResults) (step msg : String) : AllResults :=
  { base with success := false, errors := base.errors ++ [.stepErr step msg] }

/-- The whole of `_deploy_csv_records_internal`: short-circuit on an empty
records list; create the job; serialize the records to CSV (fieldnames = keys
of the first record — an uncaught `ValueError` is `.error`); upload; close;
poll; collect results.  Returns the outcome together with the trace of
network effects issued. -/
def runInternal (ora : IngestOracle) (records : List Record) :
    Except (List String) AllResults × List NetEffect :=
  if records.isEmpty then (.ok noRecordsResult, [])
  else
    let base := initResults records.length
    match ora.createJob with
    | .error e =>
      (.ok (stepFailure base "create_job" ("Failed to create bulk job: " ++ e)),
       [.createJob])
    | .ok _job_info =>
      match serializeCsvContent records with
      | .error wf => (.error wf, [.createJob])
      | .ok _csv_content =>
        match ora.upload with
        | .error e =>
          (.ok (stepFailure base "upload_data" ("Failed to upload CSV data: " ++ e)),
           [.createJob, .uploadData])
        | .ok _ =>
          match ora.close with
          | .error e =>
            (.ok (stepFailure base "close_job" ("Failed to close job: " ++ e)),
             [.createJob, .uploadData, .closeJob])
          | .ok _ =>
            match pollPhase ora.status base 0 0 with
            | (.aborted r, peffs) =>
              (.ok r, [.createJob, .uploadData, .closeJob] ++ peffs)
            | (.complete, peffs) =>
              match resultsPhase ora.successResults ora.failedResults base with
              | (finalRes, reffs) =>
                (.ok finalRes, [.createJob, .uploadData, .closeJob] ++ peffs ++ reffs)

/-!
## Account bulk upload (`bulk_upload.py`)
-/

/-- The remote side of one `bulk_upload_accounts` run. -/
structure BulkOracle where
  create : Except String Record
  upload : Except String Unit
  close : Except String Record

/-- A network request issued by `bulk_upload_accounts`. -/
inductive BulkEffect where
  | create
  | upload
  | close
deriving DecidableEq

/-- The dict returned by `bulk_upload_accounts`. -/
structure BulkResult where
  jobId : Option String
  state : Option String
deriving DecidableEq

/-- The `csv_lines` list built by `bulk_upload_accounts`: the fixed header
`Name` and then, for every record, its `Name` value (defaulting to the empty
string) — no dropping and no skipping. -/
def bulkCsvLines (rows : List Record) : List String :=
  "Name" :: rows.map (fun row => (rlookup row "Name").getD "")

/-- The CSV body uploaded by `bulk_upload_accounts`. -/
def bulkUploadCsvBody (rows : List Record) : String :=
  joinWith "\n" (bulkCsvLines rows)

/-- The whole of `bulk_upload_accounts`: empty input short-circuits to the `NoRecords`
result; otherwise create, upload and close the ingest job, with uncaught
`raise_for_status` exceptions propagating (`.error`). -/
def bulk_upload_accounts (ora : BulkOracle) (records : List Record) :
    Except String BulkResult × List BulkEffect :=
  if records.isEmpty then (.ok { jobId := none, state := some "NoRecords" }, [])
  else
    let _csv_body := bulkUploadCsvBody records
    match ora.create with
    | .error e => (.error e, [.create])
    | .ok job_info =>
      match rlookup job_info "id" with
      | none => (.error "KeyError: id", [.create])
      | some job_id =>
        match ora.upload with
        | .error e => (.error e, [.create, .upload])
        | .ok _ =>
          match ora.close with
          | .error e => (.error e, [.create, .upload, .close])
          | .ok close_info =>
            (.ok { jobId := some job_id, state := rlookup close_info "state" },
             [.create, .upload, .close])

/-- Oracle for runs where every remote call succeeds and the job is complete
at the first poll. -/
def oraAllOk : IngestOracle :=
  { createJob := .ok [("id", "750ABC")], upload := .ok (), close := .ok (),
    status := fun _ => .ok [("state", "JobComplete")],
    successResults := .ok "", failedResults := .ok "" }

/-!
## Metadata deploy submission and polling (`org_utils.py`)

`deploy_metadata_xml` posts the archive once; on HTTP status `>= 300` it
prints a failure report (with the response body) and returns `None`.
Otherwise it polls `GET .../deployRequest/{id}` in a `while True:` loop,
sleeping 3 seconds per round, until `deployResult.done` — there is no
elapsed-time bound, so the loop is modelled with explicit fuel: a `none`
first component means the loop is still running after that many polls.
-/

/-- One entry of `details.componentFailures`. -/
structure ComponentFailure where
  fullName : Option String
  problem : Option String
  fileName : Option String
  problemType : Option String
deriving DecidableEq

/-- One entry of `details.allComponentMessages`. -/
structure ComponentMessage where
  fullName : Option String
  problem : Option String
  success : Option Bool
deriving DecidableEq

/-- The optional `details` object of a deploy result. -/
structure DeployDetails where
  componentFailures : Option (List ComponentFailure)
  allComponentMessages : Option (List ComponentMessage)
deriving DecidableEq

/-- The `deployResult` object of the status response. -/
structure DeployResultJson where
  status : String
  done : Bool
  success : Option Bool
  numberComponentsDeployed : Option Nat
  numberComponentErrors : Option Nat
  details : Option DeployDetails
deriving DecidableEq

/-- The full status response body, accessed as `result["deployResult"]`. -/
structure DeployStatusWrapper where
  deployResult : DeployResultJson
deriving DecidableEq

/-- A network request or sleep issued by the metadata deploy. -/
inductive DeployEffect where
  | postDeploy
  | getStatus
  | sleep3
deriving DecidableEq

/-- The `while True:` deploy status loop, fuel-indexed: poll `σ i`; if
`done`, return the response; otherwise sleep 3 seconds and continue.  A
`none` outcome means the loop has not returned within the given number of
polls (the source has no other way out). -/
def deployPollAux (σ : Nat → DeployStatusWrapper) :
    Nat → Nat → Option DeployStatusWrapper × List DeployEffect
  | _, 0 => (none, [])
  | i, n + 1 =>
    if (σ i).deployResult.done then (some (σ i), [.getStatus])
    else
      let r := deployPollAux σ (i + 1) n
      (r.1, .getStatus :: .sleep3 :: r.2)

/-- The submission check of `deploy_metadata_xml` (status `>= 300` prints the
failure report — whose lines, including the response body, the `.error`
carries — and returns early); on success the job id is
`response.json().get("id")`. -/
def deploySubmitStep (post_status : Nat) (post_text : String)
    (post_id : Option String) : Except (List String) (Option String) :=
  if post_status ≥ 300 then .error ["Deployment request failed:", post_text]
  else .ok post_id

/-- Submission followed by the status loop: the outer `Option` is the fuel
bound (`none` = still polling); `some none` is the early `return` of the
submission failure; `some (some w)` is the returned deploy result. -/
def deploy_submit_and_poll (post_status : Nat) (post_text : String)
    (post_id : Option String) (σ : Nat → DeployStatusWrapper) (fuel : Nat) :
    Option (Option DeployStatusWrapper) × List DeployEffect :=
  match deploySubmitStep post_status post_text post_id with
  | .error _ => (some none, [.postDeploy])
  | .ok _deploy_id =>
    let r := deployPollAux σ 0 fuel
    (r.1.map some, .postDeploy :: r.2)

/-- The final-result reporting of `deploy_metadata_xml` (done branch):
returns the platform's response object unchanged together with the component
failures and the non-successful component messages it reports — every access
to `details`, `componentFailures` and `allComponentMessages` is guarded by a
membership test in the source, so absent keys report empty lists. -/
def deployCollectPhase (w : DeployStatusWrapper) :
    DeployStatusWrapper × List ComponentFailure × List ComponentMessage :=
  let dr := w.deployResult
  if dr.success.getD false then (w, [], [])
  else
    let failures :=
      match dr.details with
      | some d => d.componentFailures.getD []
      | none => []
    let failedMsgs :=
      match dr.details with
      | some d => (d.allComponentMessages.getD []).filter (fun m => !(m.success.getD false))
      | none => []
    (w, failures, failedMsgs)

/-- The error message built by the `deploy_metadata` tool on a failed deploy:
base message from `numberComponentErrors`, component-failure lines only when
`details.componentFailures` exists and is non-empty, then `.strip()`. -/
def deploy_metadata_errmsg (dr : DeployResultJson) : String :=
  let error_msg := "❌ Deployment failed! " ++ toString (dr.numberComponentErrors.getD 0) ++
    " error(s) occurred.\n"
  let error_msg2 :=
    match dr.details with
    | some d =>
      match d.componentFailures with
      | some failures =>
        if !failures.isEmpty then
          failures.foldl
            (fun acc f => acc ++ "  - " ++ (f.fullName.getD "Unknown") ++ ": " ++
              (f.problem.getD "Unknown error") ++ "\n")
            (error_msg ++ "\nComponent Failures:\n")
        else error_msg
      | none => error_msg
    | none => error_msg
  stripWs error_msg2

/-- A deploy status stream that never reports `done`. -/
def neverDoneStatus : Nat → DeployStatusWrapper := fun _ =>
  { deployResult := { status := "InProgress", done := false, success := none,
                      numberComponentsDeployed := none, numberComponentErrors := none,
                      details := none } }

/-- An ingest status stream that always reports `InProgress`. -/
def statusAlwaysInProgress : Nat → Except String Record :=
  fun _ => .ok [("state", "InProgress")]

/-- An ingest status stream that reports `Failed` at once. -/
def statusFailedFirst : Nat → Except String Record :=
  fun _ => .ok [("state", "Failed")]

/-- An ingest status stream with an unrecognized first state. -/
def statusWeirdThenDone : Nat → Except String Record := fun j =>
  if j = 0 then .ok [("state", "Weird")] else .ok [("state", "JobComplete")]

/-- An ingest status stream that is in progress once, then complete. -/
def statusInProgressThenDone : Nat → Except String Record := fun j =>
  if j = 0 then .ok [("state", "InProgress")] else .ok [("state", "JobComplete")]

/-- Oracle for runs where fetching either results CSV raises. -/
def oraC8 : IngestOracle :=
  { oraAllOk with successResults := .error "connection reset",
                  failedResults := .error "connection reset" }

/-- C2 counterexample: with two configuration-table entries matching
`CustomObject` the resolver does not fail — it silently returns the first
matching entry, contradicting the claim that more than one match is a
`ConfigurationError`. -/
theorem claim_C2_counterexample :
    entityMatchCount dupMap "CustomObject" = 2 ∧
    resolveEntityConfig dupMap "CustomObject" = .ok ("objects", "object") :=
  ⟨rfl, rfl⟩

/-- C2 amended: manifest resolution fails (with the configuration `ValueError`)
exactly when zero entries match the type name; whenever at least one entry
matches, it returns exactly one `(folderName, extension)` pair — the first
matching entry's folder with its first configuration's extension. -/
theorem claim_C2_amended (m : MetadataMap) (t : String) :
    (entityMatchCount m t = 0 → resolveEntityConfig m t = .error (configErrMsg t)) ∧
    (0 < entityMatchCount m t →
      ∃ folder ext, resolveEntityConfig m t = .ok (folder, ext)) := by
  constructor
  · intro h0
    unfold resolveEntityConfig
    unfold entityMatchCount at h0
    cases hm : entityMatches m t with
    | nil => rfl
    | cons e rest => rw [hm] at h0; simp at h0
  · intro hpos
    unfold resolveEntityConfig
    unfold entityMatchCount at hpos
    cases hm : entityMatches m t with
    | nil => rw [hm] at hpos; simp at hpos
    | cons e rest =>
      obtain ⟨folder, subs⟩ := e
      have he : (folder, subs) ∈ entityMatches m t := by
        rw [hm]; exact List.mem_cons_self _ _
      have hpred := (List.mem_filter.mp he).2
      rw [List.any_eq_true] at hpred
      obtain ⟨s, hs, _⟩ := hpred
      cases subs with
      | nil => simp at hs
      | cons c cs => exact ⟨folder, c.extension, rfl⟩

/-- C2 witness: the amended theorem applied to a one-entry table (one match
gives a result) and to the empty table (zero matches give the error). -/
theorem claim_C2_witness :
    (0 < entityMatchCount [("objects", [⟨"CustomObject", "object"⟩])] "CustomObject" ∧
      ∃ folder ext,
        resolveEntityConfig [("objects", [(⟨"CustomObject", "object"⟩ : MapSubEntry)])]
          "CustomObject" = .ok (folder, ext)) ∧
    (entityMatchCount [] "CustomObject" = 0 ∧
      resolveEntityConfig [] "CustomObject" = .error (configErrMsg "CustomObject")) :=
  ⟨⟨by decide,
    (claim_C2_amended [("objects", [⟨"CustomObject", "object"⟩])] "CustomObject").2 (by decide)⟩,
   ⟨rfl, (claim_C2_amended [] "CustomObject").1 rfl⟩⟩

/-- C4: the archive filename follows the per-type override rules as the
specification states them (for every document whose label, when present, is a
non-empty string — which is every `ElementTree`-parsed document), and the
`CustomObject` example with label `My Object` produces
`MyObject__c.object-meta.xml`. -/
theorem claim_C4 (metadata_type : String) (label : Option String)
    (fullName extension : String) (hlabel : label ≠ some "") :
    get_metadata_filename metadata_type label fullName extension =
      spec_metadata_filename metadata_type label fullName extension ∧
    get_metadata_filename "CustomObject" (some "My Object") fullName "object" =
      "MyObject__c.object-meta.xml" := by
  constructor
  · unfold get_metadata_filename spec_metadata_filename
    cases label with
    | none => rfl
    | some l =>
      have hl : l ≠ "" := fun h => hlabel (by rw [h])
      by_cases hmt : metadata_type = "CustomObject"
      · simp [hmt, hl]
      · simp [hmt]
  · rfl

/-- C4 witness: the theorem applied to a `RemoteSiteSetting` document with a
name containing a space and no label. -/
theorem claim_C4_witness :
    ((none : Option String) ≠ some "") ∧
    (get_metadata_filename "RemoteSiteSetting" none "My Site" "remoteSite" =
       spec_metadata_filename "RemoteSiteSetting" none "My Site" "remoteSite" ∧
     get_metadata_filename "CustomObject" (some "My Object") "My Site" "object" =
       "MyObject__c.object-meta.xml") :=
  ⟨by decide, claim_C4 "RemoteSiteSetting" none "My Site" "remoteSite" (by decide)⟩

/-!
## Claims about record cleaning, empty input and CSV serialization
-/

/-- C5 counterexample: `bulk_upload_accounts` does not drop empty-valued
fields — a record with an empty `Name` contributes an empty CSV line, so for
the input `[Name:"", Name:"Acme"]` the emitted body contains an empty data
row, while dropping-and-skipping (what the claim requires, shown by
`cleanRecords`) would have produced `Name` followed by the single `Acme`
row. -/
theorem claim_C5_counterexample :
    bulkUploadCsvBody [[("Name", "")], [("Name", "Acme")]] = "Name\n\nAcme" ∧
    cleanRecords [[("Name", "")], [("Name", "Acme")]] = [[("Name", "Acme")]] ∧
    "Name\n\nAcme" ≠ "Name\nAcme" :=
  ⟨rfl, rfl, by decide⟩

/-- C5 amended: in the CSV entry points of `data_utils.py` every field whose
value is empty or whitespace-only is dropped, a record whose fields are all
dropped is skipped entirely, and the example records serialize to header
`Name` with exactly one data row; `bulk_upload_accounts`, however, performs
no dropping — its CSV has one line per record plus the header, whatever the
values. -/
theorem claim_C5_amended :
    (∀ r kv, kv ∈ cleanRecord r → stripWs kv.2 ≠ "") ∧
    (∀ rows r, r ∈ cleanRecords rows → r ≠ []) ∧
    serializeCsvContent (cleanRecords [[("Name", "Acme")], [("Name", "")]]) =
      .ok "Name\nAcme\n" ∧
    (∀ rows, (bulkCsvLines rows).length = rows.length + 1) := by
  refine ⟨?_, ?_, rfl, ?_⟩
  · intro r kv h
    have h2 := (List.mem_filter.mp h).2
    simp only [Bool.and_eq_true, bne_iff_ne, ne_eq] at h2
    exact h2.2
  · intro rows r h
    have h2 := (List.mem_filter.mp h).2
    cases r with
    | nil => simp at h2
    | cons a as => simp
  · intro rows
    simp [bulkCsvLines]

/-- C5 witness: the amended theorem applied to a concrete kept field and a
concrete kept record. -/
theorem claim_C5_witness :
    (("Name", "Acme") ∈ cleanRecord [("Name", "Acme")] ∧
      stripWs ("Name", "Acme").2 ≠ "") ∧
    ([("Name", "Acme")] ∈ cleanRecords [[("Name", "Acme")]] ∧
      ([("Name", "Acme")] : Record) ≠ []) :=
  ⟨⟨by decide, claim_C5_amended.1 [("Name", "Acme")] ("Name", "Acme") (by decide)⟩,
   ⟨by decide, claim_C5_amended.2.1 [[("Name", "Acme")]] [("Name", "Acme")] (by decide)⟩⟩

/-- C6: on an empty records list both ingest entry points short-circuit —
`_deploy_csv_records_internal` to its no-records failure dict and
`bulk_upload_accounts` to the `NoRecords` state — and neither issues any
network request (the effect trace is empty: no create, upload, close or
poll). -/
theorem claim_C6 (ora : IngestOracle) (bora : BulkOracle) :
    runInternal ora [] = (.ok noRecordsResult, []) ∧
    bulk_upload_accounts bora [] =
      (.ok { jobId := none, state := some "NoRecords" }, []) :=
  ⟨rfl, rfl⟩

/-- If some row holds a key outside `fieldnames`, serialization of the rows
raises the `ValueError` (the rows before it may raise first). -/
theorem writeRowsLines_error_of_bad (fieldnames : List String) :
    ∀ rs : List Record, (∃ r ∈ rs, ∃ k ∈ keysOf r, fieldnames.contains k = false) →
    ∃ wf, writeRowsLines fieldnames rs = .error wf := by
  intro rs
  induction rs with
  | nil =>
    intro h
    obtain ⟨r, hr, _⟩ := h
    simp at hr
  | cons r rs ih =>
    intro h
    unfold writeRowsLines
    cases hw : writeRowCells fieldnames r with
    | error wf => exact ⟨wf, rfl⟩
    | ok line =>
      obtain ⟨r', hr', k, hk, hcontains⟩ := h
      rcases List.mem_cons.mp hr' with heq | hmem
      · exfalso
        subst heq
        have hmemf : k ∈ (keysOf r').filter (fun k2 => !(fieldnames.contains k2)) :=
          List.mem_filter.mpr ⟨hk, by rw [hcontains]; rfl⟩
        unfold writeRowCells at hw
        cases hfil : (keysOf r').filter (fun k2 => !(fieldnames.contains k2)) with
        | nil => rw [hfil] at hmemf; simp at hmemf
        | cons k1 ks => rw [hfil] at hw; exact Except.noConfusion hw
      · obtain ⟨wf, hwf⟩ := ih ⟨r', hmem, k, hk, hcontains⟩
        rw [hwf]
        exact ⟨wf, rfl⟩

/-- C9: the CSV header is exactly the keys of the first record; a later
record with a field name outside the first record's keys makes serialization
raise a `ValueError` which propagates out of the pipeline as an exception
(`.error`, not a structured failure dict); and a later record missing one of
the first record's fields is serialized with that field empty. -/
theorem claim_C9 :
    (∀ (r0 : Record) (rest : List Record) (ls : List String),
       serializeCsvLines (r0 :: rest) = .ok ls →
       ls.head? = some (joinWith "," ((keysOf r0).map csvQuote))) ∧
    (∀ (r0 : Record) (rest : List Record),
       (∃ r ∈ rest, ∃ k ∈ keysOf r, (keysOf r0).contains k = false) →
       ∃ wf, serializeCsvLines (r0 :: rest) = .error wf) ∧
    serializeCsvContent [[("Name", "Acme"), ("Phone", "555")], [("Name", "Bob")]] =
      .ok "Name,Phone\nAcme,555\nBob,\n" ∧
    runInternal oraAllOk [[("Phone", "555")], [("Name", "Acme"), ("Phone", "666")]] =
      (.error ["Name"], [.createJob]) := by
  refine ⟨?_, ?_, rfl, rfl⟩
  · intro r0 rest ls h
    simp only [serializeCsvLines] at h
    cases hw : writeRowsLines (keysOf r0) (r0 :: rest) with
    | error wf => rw [hw] at h; exact Except.noConfusion h
    | ok rows =>
      rw [hw] at h
      simp only [Except.ok.injEq] at h
      rw [← h]
      rfl
  · intro r0 rest hbad
    obtain ⟨r, hr, k, hk, hc⟩ := hbad
    obtain ⟨wf, hwf⟩ := writeRowsLines_error_of_bad (keysOf r0) (r0 :: rest)
      ⟨r, List.mem_cons_of_mem r0 hr, k, hk, hc⟩
    refine ⟨wf, ?_⟩
    simp only [serializeCsvLines]
    rw [hwf]

/-- C9 witness: the first part applied to a one-record batch, the second to a
batch whose second record brings in a new `Name` column. -/
theorem claim_C9_witness :
    (serializeCsvLines [[("Name", "Acme")]] = .ok ["Name", "Acme"] ∧
      (["Name", "Acme"] : List String).head? =
        some (joinWith "," ((keysOf [("Name", "Acme")]).map csvQuote))) ∧
    (∃ wf, serializeCsvLines [[("Phone", "555")], [("Name", "Acme"), ("Phone", "666")]] =
      .error wf) :=
  ⟨⟨rfl, claim_C9.1 [("Name", "Acme")] [] ["Name", "Acme"] rfl⟩,
   claim_C9.2.1 [("Phone", "555")] [[("Name", "Acme"), ("Phone", "666")]]
     ⟨[("Name", "Acme"), ("Phone", "666")], by simp, "Name", by simp [keysOf], by decide⟩⟩

/-!
## Claims about polling
-/

/-- The deploy status loop never returns while the stream never reports
`done`, whatever the fuel. -/
theorem deployPollAux_none (σ : Nat → DeployStatusWrapper)
    (hσ : ∀ j, (σ j).deployResult.done = false) :
    ∀ n i, (deployPollAux σ i n).1 = none := by
  intro n
  induction n with
  | zero => intro i; rfl
  | succ n ih =>
    intro i
    unfold deployPollAux
    simp [hσ i, ih (i + 1)]

/-- The ingest poll loop on a stream that always answers `InProgress`
reaches the timeout failure from any starting point. -/
theorem pollPhase_timeout (statusF : Nat → Except String Record) (res : AllResults)
    (h : ∀ j, statusF j = .ok [("state", "InProgress")]) :
    ∀ k i elapsed, 300 - elapsed ≤ k →
      (pollPhase statusF res i elapsed).1 = .aborted (pollTimeoutResult res) := by
  intro k
  induction k with
  | zero =>
    intro i elapsed hk
    have hge : ¬ elapsed < 300 := by omega
    unfold pollPhase
    rw [dif_neg hge]
  | succ k ih =>
    intro i elapsed hk
    by_cases hc : elapsed < 300
    · have ih3 := ih (i + 1) (elapsed + 3) (by omega)
      unfold pollPhase
      rw [dif_pos hc]
      simp only [h i]
      simp [rlookup, ih3]
    · unfold pollPhase
      rw [dif_neg hc]

/-- C1 counterexample: the metadata deploy poll loop is not bounded — on a
job that never reaches a terminal state it is still polling after 200 polls
(with its 3-second sleeps, 597 seconds elapsed, far beyond the claimed
300-second `maxWait`), having reported no timeout failure. -/
theorem claim_C1_counterexample :
    (deployPollAux neverDoneStatus 0 200).1 = none ∧ 300 < 3 * 200 :=
  ⟨deployPollAux_none neverDoneStatus (fun _ => rfl) 200 0, by decide⟩

/-- C1 amended: the bulk-ingest poll loop is bounded — on a job that never
leaves `InProgress` it stops once accumulated elapsed time reaches
`max_wait_time = 300` seconds (polling every 3 seconds) and reports the
poll-timeout failure; the metadata deploy poll loop, by contrast, has no
timeout and keeps polling until the job reports `done`. -/
theorem claim_C1_amended (statusF : Nat → Except String Record) (res : AllResults)
    (h : ∀ j, statusF j = .ok [("state", "InProgress")])
    (σ : Nat → DeployStatusWrapper) (hσ : ∀ j, (σ j).deployResult.done = false)
    (n : Nat) :
    (pollPhase statusF res 0 0).1 = .aborted (pollTimeoutResult res) ∧
    (deployPollAux σ 0 n).1 = none :=
  ⟨pollPhase_timeout statusF res h 300 0 0 (by omega),
   deployPollAux_none σ hσ n 0⟩

/-- C1 witness: the amended theorem at the concrete always-`InProgress`
ingest stream and the concrete never-`done` deploy stream. -/
theorem claim_C1_witness :
    (∀ j, statusAlwaysInProgress j = .ok [("state", "InProgress")]) ∧
    (∀ j, (neverDoneStatus j).deployResult.done = false) ∧
    ((pollPhase statusAlwaysInProgress (initResults 1) 0 0).1 =
       .aborted (pollTimeoutResult (initResults 1)) ∧
     (deployPollAux neverDoneStatus 0 5).1 = none) :=
  ⟨fun _ => rfl, fun _ => rfl,
   claim_C1_amended statusAlwaysInProgress (initResults 1) (fun _ => rfl)
     neverDoneStatus (fun _ => rfl) 5⟩

/-- The poll loop only depends on the status responses from the current
index on: streams agreeing from index `i` give identical runs. -/
theorem pollPhase_congr (F G : Nat → Except String Record) (res : AllResults) :
    ∀ k i elapsed, 300 - elapsed ≤ k → (∀ j, i ≤ j → F j = G j) →
      pollPhase F res i elapsed = pollPhase G res i elapsed := by
  intro k
  induction k with
  | zero =>
    intro i elapsed hk hFG
    have hge : ¬ elapsed < 300 := by omega
    unfold pollPhase
    rw [dif_neg hge, dif_neg hge]
  | succ k ih =>
    intro i elapsed hk hFG
    by_cases hc : elapsed < 300
    · have ihrec := ih (i + 1) (elapsed + 3) (by omega) (fun j hj => hFG j (by omega))
      unfold pollPhase
      rw [dif_pos hc, dif_pos hc, hFG i (le_refl i)]
      simp only [ihrec]
    · unfold pollPhase
      rw [dif_neg hc, dif_neg hc]

/-- A poll round whose status is neither `JobComplete` nor a failure state
sleeps 3 seconds and continues — whether the state is a known in-progress
state or an unrecognized one. -/
theorem pollPhase_continue (statusF : Nat → Except String Record)
    (res : AllResults) (i elapsed : Nat) (hc : elapsed < 300) (js : Record)
    (hok : statusF i = .ok js)
    (hnc : ¬ (rlookup js "state" = some "JobComplete"))
    (hnf : ¬ (rlookup js "state" = some "Failed" ∨ rlookup js "state" = some "Aborted")) :
    pollPhase statusF res i elapsed =
      ((pollPhase statusF res (i + 1) (elapsed + 3)).1,
       .pollStatus :: .sleep 3 :: (pollPhase statusF res (i + 1) (elapsed + 3)).2) := by
  conv_lhs => unfold pollPhase
  rw [dif_pos hc]
  simp only [hok]
  rw [if_neg hnc, if_neg hnf, ite_self]

/-- C7: a first poll answering `Failed` or `Aborted` makes the ingest poll
loop return the `job_processing` failure at once — a single status request,
no sleep, and not the timeout failure; and an unrecognized first state is
treated exactly like `InProgress`: the loop sleeps and continues, giving the
same run as an in-progress first state would. -/
theorem claim_C7 (statusF : Nat → Except String Record) (res : AllResults)
    (s : String) (hs : s = "Failed" ∨ s = "Aborted")
    (hF0 : statusF 0 = .ok [("state", s)])
    (statusG statusH : Nat → Except String Record) (u : String)
    (hu : ¬ (u = "JobComplete" ∨ u = "Failed" ∨ u = "Aborted" ∨
             u = "InProgress" ∨ u = "Open"))
    (hG0 : statusG 0 = .ok [("state", u)])
    (hH0 : statusH 0 = .ok [("state", "InProgress")])
    (hGH : ∀ j, 1 ≤ j → statusG j = statusH j) :
    pollPhase statusF res 0 0 =
      (.aborted { res with
                  success := false,
                  errors := res.errors ++ [.stepErr "job_processing"
                    ("Job " ++ lowerAscii s ++ ": Unknown error")] },
       [.pollStatus]) ∧
    pollPhase statusG res 0 0 = pollPhase statusH res 0 0 := by
  constructor
  · rcases hs with h | h <;> subst h <;>
      (unfold pollPhase; rw [dif_pos (by omega)]; simp only [hF0]; rfl)
  · have hstG : rlookup [("state", u)] "state" = some u := rfl
    have hncG : ¬ (rlookup [("state", u)] "state" = some "JobComplete") := by
      rw [hstG]
      intro h
      exact hu (Or.inl (Option.some.inj h))
    have hnfG : ¬ (rlookup [("state", u)] "state" = some "Failed" ∨
                   rlookup [("state", u)] "state" = some "Aborted") := by
      rw [hstG]
      rintro (h | h)
      · exact hu (Or.inr (Or.inl (Option.some.inj h)))
      · exact hu (Or.inr (Or.inr (Or.inl (Option.some.inj h))))
    have hcG := pollPhase_continue statusG res 0 0 (by omega) [("state", u)] hG0 hncG hnfG
    have hcH := pollPhase_continue statusH res 0 0 (by omega) [("state", "InProgress")]
      hH0 (by decide) (by decide)
    have hrec := pollPhase_congr statusG statusH res 300 1 3 (by omega) hGH
    rw [hcG, hcH, hrec]

/-- C7 witness: the theorem at a stream that fails at once and at concrete
streams whose first states are `Weird` and `InProgress` respectively. -/
theorem claim_C7_witness :
    (("Failed" : String) = "Failed" ∨ ("Failed" : String) = "Aborted") ∧
    statusFailedFirst 0 = .ok [("state", "Failed")] ∧
    (¬ (("Weird" : String) = "JobComplete" ∨ ("Weird" : String) = "Failed" ∨
        ("Weird" : String) = "Aborted" ∨ ("Weird" : String) = "InProgress" ∨
        ("Weird" : String) = "Open")) ∧
    (pollPhase statusFailedFirst (initResults 1) 0 0 =
       (.aborted { initResults 1 with
                   success := false,
                   errors := (initResults 1).errors ++ [.stepErr "job_processing"
                     ("Job " ++ lowerAscii "Failed" ++ ": Unknown error")] },
        [.pollStatus]) ∧
     pollPhase statusWeirdThenDone (initResults 1) 0 0 =
       pollPhase statusInProgressThenDone (initResults 1) 0 0) :=
  ⟨Or.inl rfl, rfl, by decide,
   claim_C7 statusFailedFirst (initResults 1) "Failed" (Or.inl rfl) rfl
     statusWeirdThenDone statusInProgressThenDone "Weird" (by decide) rfl rfl
     (fun j hj => by
        unfold statusWeirdThenDone statusInProgressThenDone
        rw [if_neg (by omega), if_neg (by omega)])⟩

/-!
## Claims about submission and result collection
-/

/-- C3: when the deploy POST answers with HTTP status `>= 300` the submitter
fails at once — the failure report carries the response body, the returned
value is the early `None` return, and the effect trace holds exactly the one
POST: no retry and no status poll ever happens. -/
theorem claim_C3 (post_status : Nat) (post_text : String) (post_id : Option String)
    (σ : Nat → DeployStatusWrapper) (fuel : Nat) (h : 300 ≤ post_status) :
    deploySubmitStep post_status post_text post_id =
      .error ["Deployment request failed:", post_text] ∧
    deploy_submit_and_poll post_status post_text post_id σ fuel =
      (some none, [.postDeploy]) := by
  have hs : deploySubmitStep post_status post_text post_id =
      .error ["Deployment request failed:", post_text] := by
    unfold deploySubmitStep
    rw [if_pos h]
  refine ⟨hs, ?_⟩
  unfold deploy_submit_and_poll
  rw [hs]

/-- C3 witness: the theorem at status 400 with a concrete body. -/
theorem claim_C3_witness :
    (300 ≤ 400) ∧
    (deploySubmitStep 400 "INVALID_SESSION_ID" none =
       .error ["Deployment request failed:", "INVALID_SESSION_ID"] ∧
     deploy_submit_and_poll 400 "INVALID_SESSION_ID" none neverDoneStatus 7 =
       (some none, [.postDeploy])) :=
  ⟨by omega, claim_C3 400 "INVALID_SESSION_ID" none neverDoneStatus 7 (by omega)⟩

/-- Folding failed-results rows never changes the success-side tallies. -/
theorem foldl_failRowStep_pres (rows : List Record) :
    ∀ acc : AllResults,
      (rows.foldl failRowStep acc).successful = acc.successful ∧
      (rows.foldl failRowStep acc).created_ids = acc.created_ids := by
  induction rows with
  | nil => intro acc; exact ⟨rfl, rfl⟩
  | cons r rs ih =>
    intro acc
    simp only [List.foldl_cons]
    exact ⟨(ih (failRowStep acc r)).1, (ih (failRowStep acc r)).2⟩

/-- Folding successful-results rows never changes the failure-side tallies. -/
theorem foldl_succRowStep_pres (rows : List Record) :
    ∀ acc : AllResults,
      (rows.foldl succRowStep acc).failed = acc.failed ∧
      (rows.foldl succRowStep acc).errors = acc.errors := by
  induction rows with
  | nil => intro acc; exact ⟨rfl, rfl⟩
  | cons r rs ih =>
    intro acc
    simp only [List.foldl_cons]
    exact ⟨(ih (succRowStep acc r)).1, (ih (succRowStep acc r)).2⟩

/-- C8: after the job is terminal, a request error while fetching either
results CSV is non-fatal — the corresponding tallies are simply left as they
were (zero in a real run), the returned success flag always equals
`failed == 0`, and a full run whose both fetches raise still returns a
results dict (no exception) with both counts zero and `success = true`. -/
theorem claim_C8 :
    (∀ (e : String) (failR : Except String String) (res : AllResults),
       (resultsPhase (.error e) failR res).1.successful = res.successful ∧
       (resultsPhase (.error e) failR res).1.created_ids = res.created_ids) ∧
    (∀ (succR : Except String String) (e : String) (res : AllResults),
       (resultsPhase succR (.error e) res).1.failed = res.failed ∧
       (resultsPhase succR (.error e) res).1.errors = res.errors) ∧
    (∀ (succR failR : Except String String) (res : AllResults),
       (resultsPhase succR failR res).1.success =
         ((resultsPhase succR failR res).1.failed == 0)) ∧
    runInternal oraC8 [[("Name", "Acme")]] =
      (.ok { success := true, total_records := 1, successful := 0, failed := 0,
             errors := [], created_ids := [] },
       [.createJob, .uploadData, .closeJob, .pollStatus, .fetchSuccess, .fetchFailed]) := by
  refine ⟨?_, ?_, ?_, ?_⟩
  · intro e failR res
    cases failR with
    | error e2 => exact ⟨rfl, rfl⟩
    | ok content =>
      by_cases hcont : content ≠ ""
      · simp only [resultsPhase, if_pos hcont]
        exact ⟨(foldl_failRowStep_pres (dictReaderParse content) res).1,
               (foldl_failRowStep_pres (dictReaderParse content) res).2⟩
      · simp [resultsPhase, hcont]
  · intro succR e res
    cases succR with
    | error e2 => exact ⟨rfl, rfl⟩
    | ok content =>
      by_cases hcont : content ≠ ""
      · simp only [resultsPhase, if_pos hcont]
        exact ⟨(foldl_succRowStep_pres (dictReaderParse content) res).1,
               (foldl_succRowStep_pres (dictReaderParse content) res).2⟩
      · simp [resultsPhase, hcont]
  · intro succR failR res
    rfl
  · have hpoll : ∀ res : AllResults,
        pollPhase oraC8.status res 0 0 = (.complete, [.pollStatus]) := by
      intro res
      unfold pollPhase
      rw [dif_pos (by omega)]
      rfl
    simp only [runInternal]
    simp only [hpoll]
    rfl

/-- C10: for a finished, unsuccessful deploy result whose payload lacks the
`details` key — or whose `details` lacks `componentFailures` and
`allComponentMessages` — the collectors do not raise: the platform's result
object is returned unchanged, the reported component-failure and message
lists are empty, and the tool's error message is just the stripped base
failure line with no component-failure section. -/
theorem claim_C10 (w : DeployStatusWrapper)
    (_hdone : w.deployResult.done = true)
    (hfail : w.deployResult.success.getD false = false) :
    (w.deployResult.details = none →
       deployCollectPhase w = (w, [], []) ∧
       deploy_metadata_errmsg w.deployResult =
         stripWs ("❌ Deployment failed! " ++
           toString (w.deployResult.numberComponentErrors.getD 0) ++
           " error(s) occurred.\n")) ∧
    (∀ d, w.deployResult.details = some d → d.componentFailures = none →
       d.allComponentMessages = none →
       deployCollectPhase w = (w, [], []) ∧
       deploy_metadata_errmsg w.deployResult =
         stripWs ("❌ Deployment failed! " ++
           toString (w.deployResult.numberComponentErrors.getD 0) ++
           " error(s) occurred.\n")) := by
  constructor
  · intro hdet
    constructor
    · simp [deployCollectPhase, hfail, hdet]
    · simp [deploy_metadata_errmsg, hdet]
  · intro d hdet hcf hmsg
    constructor
    · simp [deployCollectPhase, hfail, hdet, hcf, hmsg]
    · simp [deploy_metadata_errmsg, hdet, hcf]

/-- C10 witness: the theorem at a concrete finished failed result with no
`details` at all and at one whose `details` is present but empty. -/
theorem claim_C10_witness :
    (({ deployResult := { status := "Failed", done := true, success := some false,
                          numberComponentsDeployed := none,
                          numberComponentErrors := some 1, details := none } } :
        DeployStatusWrapper).deployResult.done = true ∧
     ({ deployResult := { status := "Failed", done := true, success := some false,
                          numberComponentsDeployed := none,
                          numberComponentErrors := some 1, details := none } } :
        DeployStatusWrapper).deployResult.success.getD false = false) ∧
    (deployCollectPhase
        { deployResult := { status := "Failed", done := true, success := some false,
                            numberComponentsDeployed := none,
                            numberComponentErrors := some 1, details := none } } =
      ({ deployResult := { status := "Failed", done := true, success := some false,
                           numberComponentsDeployed := none,
                           numberComponentErrors := some 1, details := none } }, [], []) ∧
     deploy_metadata_errmsg
        { status := "Failed", done := true, success := some false,
          numberComponentsDeployed := none, numberComponentErrors := some 1,
          details := none } =
       stripWs ("❌ Deployment failed! " ++ toString ((some 1).getD 0) ++
         " error(s) occurred.\n")) :=
  ⟨⟨rfl, rfl⟩,
   (claim_C10
     { deployResult := { status := "Failed", done := true, success := some false,
                         numberComponentsDeployed := none,
                         numberComponentErrors := some 1, details := none } }
     rfl rfl).1 rfl⟩
